import Mathlib

/-!
Verification of the recall-dashboard data-access layer (`recall_repo.py`).

The Python module exposes a WHERE-clause builder `_build_where` and seven
read-only query operations over a three-table relational store
(manufacturers, models, recalls).  We embed:

* dates (`PDate`) with the lexicographic order Python's `datetime.date`
  comparisons use;
* `_build_where` at the level of the produced SQL text and bound-parameter
  list (`buildWhere`);
* the relational store (`DB`) and the meaning of each generated SQL query
  as a Lean function over it (`fetch_recalls`, `fetch_kpi`, ...), with SQL
  `NULL` as `Option.none`, `NULL` comparisons yielding no match,
  `COALESCE` as `Option.getD`, and `ORDER BY` via `List.insertionSort`;
* the `try/except mysql.connector.Error` wrapping as an `Except` layer
  (`PyErr`, `fetch_recallsE`, ...).
-/

/-- Calendar date, as produced by Python `datetime.date(y, m, d)`. -/
structure PDate where
  y : Nat
  m : Nat
  d : Nat
deriving DecidableEq, Repr

/-- The order `datetime.date` (and SQL `DATE`) comparison uses:
lexicographic on (year, month, day). -/
def PDate.le (a b : PDate) : Prop :=
  a.y < b.y ∨ (a.y = b.y ∧ (a.m < b.m ∨ (a.m = b.m ∧ a.d ≤ b.d)))

instance : DecidableRel PDate.le := fun a b => by
  unfold PDate.le; infer_instance

/-- `PDate.le` is total. -/
theorem PDate.le_total (a b : PDate) : PDate.le a b ∨ PDate.le b a := by
  unfold PDate.le; omega

/-- `PDate.le` is transitive. -/
theorem PDate.le_trans {a b c : PDate} (h1 : PDate.le a b) (h2 : PDate.le b c) :
    PDate.le a c := by
  unfold PDate.le at *; omega

/-- A value bound into the parameterized query: `_build_where` appends
strings (scope, maker, search token) and `datetime.date` values. -/
inductive SqlParam where
  | str (v : String)
  | date (v : PDate)
deriving DecidableEq, Repr

/-- SQL fragment the scope filter appends. -/
def scopeFrag : String := "mf.region_at = %s"

/-- SQL fragment the maker filter appends. -/
def makerFrag : String := "mf.maker_name = %s"

/-- SQL fragment the manufacture-year filter appends. -/
def yearFrag : String := "md.start_date <= %s AND md.end_date >= %s"

/-- SQL fragment the search filter appends. -/
def searchFrag : String :=
  "(mf.maker_name LIKE CONCAT('%', %s, '%') OR md.model_name LIKE CONCAT('%', %s, '%'))"

/-- Python `str.isspace` on the default-whitespace characters `strip()`
removes. -/
def isSpaceChar (c : Char) : Bool :=
  c == ' ' || c == '\t' || c == '\n' || c == '\r' || c == '\x0b' || c == '\x0c'

/-- Python `search_text.strip()`: drop leading and trailing whitespace
(structurally recursive so that concrete inputs evaluate). -/
def pyStrip (s : String) : String :=
  ⟨((s.toList.dropWhile isSpaceChar).reverse.dropWhile isSpaceChar).reverse⟩

/-- Embedding of `_build_where(scope, maker, manufacture_year, search_text)`
(recall_repo.py lines 79-138).  The Python code pushes clause strings onto
`where` and values onto `params` in the order scope, maker, year, search,
then returns `f"WHERE {' AND '.join(where)}"` when `where` is non-empty and
`""` otherwise.  For the year filter it binds `date(y,12,31)` then
`date(y,1,1)` (the code does `params.extend([y_end, y_start])`); for the
search filter it strips the text and binds the stripped token twice. -/
def buildWhere (scope maker : String) (manufacture_year : Option Nat)
    (search_text : String) : String × List SqlParam :=
  let acc0 : List String × List SqlParam := ([], [])
  let acc1 :=
    if scope = "전체" then acc0
    else (acc0.1 ++ [scopeFrag], acc0.2 ++ [SqlParam.str scope])
  let acc2 :=
    if maker = "전체" then acc1
    else (acc1.1 ++ [makerFrag], acc1.2 ++ [SqlParam.str maker])
  let acc3 :=
    match manufacture_year with
    | none => acc2
    | some y =>
        (acc2.1 ++ [yearFrag],
         acc2.2 ++ [SqlParam.date ⟨y, 12, 31⟩, SqlParam.date ⟨y, 1, 1⟩])
  let s := pyStrip search_text
  let acc4 :=
    if s = "" then acc3
    else (acc3.1 ++ [searchFrag], acc3.2 ++ [SqlParam.str s, SqlParam.str s])
  (if acc4.1 = [] then "" else "WHERE " ++ String.intercalate " AND " acc4.1,
   acc4.2)

/-- Spec-side description of the WHERE text: one fixed clause per
non-no-op input, in the fixed order scope, maker, year, search, joined by
`" AND "`; empty string when no clause is selected. -/
def whereTextSpec (useScope useMaker useYear useSearch : Bool) : String :=
  let cs : List String :=
    (if useScope then [scopeFrag] else []) ++
    (if useMaker then [makerFrag] else []) ++
    (if useYear then [yearFrag] else []) ++
    (if useSearch then [searchFrag] else [])
  if cs = [] then "" else "WHERE " ++ String.intercalate " AND " cs

/-- Spec-side description of the bound-parameter list: the filter values,
in clause order (for the year clause: Dec 31 bound before Jan 1, matching
the placeholder order; for search: the stripped token twice). -/
def paramsSpec (scope maker : String) (manufacture_year : Option Nat)
    (search_text : String) : List SqlParam :=
  (if scope = "전체" then [] else [SqlParam.str scope]) ++
  (if maker = "전체" then [] else [SqlParam.str maker]) ++
  (match manufacture_year with
   | none => []
   | some y => [SqlParam.date ⟨y, 12, 31⟩, SqlParam.date ⟨y, 1, 1⟩]) ++
  (if pyStrip search_text = "" then []
   else [SqlParam.str (pyStrip search_text), SqlParam.str (pyStrip search_text)])

/-- `sub` is a prefix of `hay` (on character lists). -/
def startsWithL : List Char → List Char → Bool
  | [], _ => true
  | _ :: _, [] => false
  | a :: as, b :: bs => a == b && startsWithL as bs

/-- `sub` occurs somewhere in `hay` (on character lists). -/
def containsSubL (sub : List Char) : List Char → Bool
  | [] => startsWithL sub []
  | b :: bs => startsWithL sub (b :: bs) || containsSubL sub bs

/-- `sub` occurs as a contiguous substring of `hay`. -/
def containsSub (hay sub : String) : Bool :=
  containsSubL sub.toList hay.toList

/-- Row of `tbl_manufacturer` (id, name, region classification); columns
other than the id are nullable in the store. -/
structure Manufacturer where
  maker_id : Nat
  maker_name : Option String
  region_at : Option String
deriving DecidableEq, Repr

/-- Row of `tbl_model` (id, owning manufacturer, name, production-period
start/end dates). -/
structure CarModel where
  model_id : Nat
  maker_id : Nat
  model_name : Option String
  start_date : Option PDate
  end_date : Option PDate
deriving DecidableEq, Repr

/-- Row of `tbl_recall` (owning model, affected-unit quantity, defect,
remedy, contact texts). -/
structure Recall where
  model_id : Nat
  recall_quantity : Option Nat
  defect_desc : Option String
  fix_method : Option String
  recall_center : Option String
deriving DecidableEq, Repr

/-- The three-table relational store the queries run against. -/
structure DB where
  recalls : List Recall
  models : List CarModel
  manufacturers : List Manufacturer
deriving Repr

/-- The `(model, manufacturer)` pairs joining a given `model_id`:
`JOIN tbl_model md ON rc.model_id = md.model_id
JOIN tbl_manufacturer mf ON md.maker_id = mf.maker_id`. -/
def modelMakerRows (models : List CarModel) (manus : List Manufacturer)
    (mid : Nat) : List (CarModel × Manufacturer) :=
  (models.filter fun md => md.model_id == mid).flatMap fun md =>
    (manus.filter fun mf => mf.maker_id == md.maker_id).map fun mf => (md, mf)

/-- A row of the three-way join
`tbl_recall rc JOIN tbl_model md ON rc.model_id = md.model_id
JOIN tbl_manufacturer mf ON md.maker_id = mf.maker_id`. -/
def joinRows (db : DB) : List (Recall × CarModel × Manufacturer) :=
  db.recalls.flatMap fun rc =>
    (modelMakerRows db.models db.manufacturers rc.model_id).map fun p =>
      (rc, p.1, p.2)

/-- Meaning of the scope clause on a joined row: when `scope ≠ "전체"` the
query contains `mf.region_at = %s` bound to `scope` (a SQL equality that a
NULL `region_at` never satisfies); otherwise no clause. -/
def scopeSem (scope : String) (mf : Manufacturer) : Bool :=
  if scope = "전체" then true else mf.region_at == some scope

/-- Meaning of the maker clause: when `maker ≠ "전체"` the query contains
`mf.maker_name = %s` bound to `maker`; otherwise no clause. -/
def makerSem (maker : String) (mf : Manufacturer) : Bool :=
  if maker = "전체" then true else mf.maker_name == some maker

/-- Meaning of `md.start_date <= date(y,12,31) AND md.end_date >= date(y,1,1)`:
a NULL date fails the comparison, so only a model with both dates set can
match. -/
def yearOverlapSem (y : Nat) (md : CarModel) : Bool :=
  match md.start_date, md.end_date with
  | some s, some e =>
      decide (PDate.le s ⟨y, 12, 31⟩) && decide (PDate.le ⟨y, 1, 1⟩ e)
  | _, _ => false

/-- Meaning of the year clause: present (as `yearOverlapSem`) exactly when a
manufacture year was supplied. -/
def yearSem (manufacture_year : Option Nat) (md : CarModel) : Bool :=
  match manufacture_year with
  | none => true
  | some y => yearOverlapSem y md

/-- `col LIKE CONCAT('%', %s, '%')`: case-insensitive containment of the
bound token in the column value; NULL column never matches. -/
def likeSem (col : Option String) (token : String) : Bool :=
  match col with
  | none => false
  | some v => containsSub v.toLower token.toLower

/-- Meaning of the search clause: when the stripped text is non-empty the
query contains the two-sided LIKE disjunction over manufacturer name and
model name, both bound to the stripped token; otherwise no clause. -/
def searchSem (search_text : String) (md : CarModel) (mf : Manufacturer) : Bool :=
  let s := pyStrip search_text
  if s = "" then true
  else likeSem mf.maker_name s || likeSem md.model_name s

/-- Conjunction of the clauses `_build_where` emits, evaluated on a joined
row (`WHERE` with no clauses selects every row). -/
def whereSem (scope maker : String) (manufacture_year : Option Nat)
    (search_text : String) : Recall × CarModel × Manufacturer → Bool
  | (_, md, mf) =>
      scopeSem scope mf && makerSem maker mf &&
      yearSem manufacture_year md && searchSem search_text md mf

/-- `ORDER BY md.end_date DESC`: later end dates first; MySQL sorts NULLs
last under `DESC`. -/
def optEndDesc : Option PDate → Option PDate → Prop
  | none, none => True
  | none, some _ => False
  | some _, none => True
  | some a, some b => PDate.le b a

instance : DecidableRel optEndDesc := fun a b => by
  cases a <;> cases b <;> unfold optEndDesc <;> infer_instance

instance : IsTotal (Option PDate) optEndDesc where
  total a b := by
    cases a <;> cases b <;> unfold optEndDesc <;> try simp
    exact (PDate.le_total _ _).symm

instance : IsTrans (Option PDate) optEndDesc where
  trans a b c hab hbc := by
    cases a <;> cases b <;> cases c <;> unfold optEndDesc at * <;> try trivial
    exact PDate.le_trans hbc hab

/-- `ORDER BY md.end_date DESC` lifted to joined rows. -/
def rowEndDesc (a b : Recall × CarModel × Manufacturer) : Prop :=
  optEndDesc a.2.1.end_date b.2.1.end_date

instance : DecidableRel rowEndDesc := fun a b => by
  unfold rowEndDesc; infer_instance

instance : IsTotal (Recall × CarModel × Manufacturer) rowEndDesc where
  total a b := IsTotal.total (r := optEndDesc) a.2.1.end_date b.2.1.end_date

instance : IsTrans (Recall × CarModel × Manufacturer) rowEndDesc where
  trans _ _ _ hab hbc := IsTrans.trans (r := optEndDesc) _ _ _ hab hbc

/-- `ORDER BY recall_cnt DESC` on grouped `(key, count)` pairs. -/
def cntDesc {α : Type} (a b : α × Nat) : Prop := b.2 ≤ a.2

instance {α : Type} : DecidableRel (cntDesc (α := α)) := fun a b => by
  unfold cntDesc; infer_instance

instance {α : Type} : IsTotal (α × Nat) cntDesc where
  total a b := Nat.le_total b.2 a.2

instance {α : Type} : IsTrans (α × Nat) cntDesc where
  trans _ _ _ hab hbc := Nat.le_trans hbc hab

/-- `ORDER BY maker_name` ascending; MySQL sorts NULLs first under `ASC`. -/
def optNameLe : Option String → Option String → Prop
  | none, _ => True
  | some _, none => False
  | some a, some b => a ≤ b

instance : DecidableRel optNameLe := fun a b => by
  cases a <;> cases b <;> unfold optNameLe <;> infer_instance

instance : IsTotal (Option String) optNameLe where
  total a b := by
    cases a <;> cases b <;> unfold optNameLe <;> try simp
    exact le_total _ _

instance : IsTrans (Option String) optNameLe where
  trans a b c hab hbc := by
    cases a <;> cases b <;> cases c <;> unfold optNameLe at * <;> try trivial
    exact le_trans hab hbc

/-- The record one output row of `fetch_recalls` is packed into
(`RecallView` in recall_repo.py).  `start_date`/`end_date` are selected
without `COALESCE`, so they can carry the store's NULL. -/
structure RecallView where
  scope : String
  maker : String
  car_name : String
  start_date : Option PDate
  end_date : Option PDate
  target_units : Nat
  defect_text : String
  fix_text : String
  contact_text : String
deriving DecidableEq, Repr

/-- The SELECT projection of `fetch_recalls`: `COALESCE(text, '')`,
`COALESCE(rc.recall_quantity, 0)`, and the raw dates. -/
def toView : Recall × CarModel × Manufacturer → RecallView
  | (rc, md, mf) =>
      { scope := mf.region_at.getD ""
        maker := mf.maker_name.getD ""
        car_name := md.model_name.getD ""
        start_date := md.start_date
        end_date := md.end_date
        target_units := rc.recall_quantity.getD 0
        defect_text := rc.defect_desc.getD ""
        fix_text := rc.fix_method.getD ""
        contact_text := rc.recall_center.getD "" }

/-- `fetch_recalls(scope, maker, manufacture_year, search_text, limit)`
(recall_repo.py lines 145-206): join, filter by the built WHERE, order by
model end date descending, project, cap at `limit`. -/
def fetch_recalls (db : DB) (scope maker : String) (manufacture_year : Option Nat)
    (search_text : String) (limit : Nat) : List RecallView :=
  ((((joinRows db).filter
      (whereSem scope maker manufacture_year search_text)).insertionSort
        rowEndDesc).map toView).take limit

/-- The Python truthiness filter `if maker_name:` applied to one fetched
`maker_name` cell: it keeps exactly the non-NULL, non-empty names. -/
def keepTruthy (o : Option String) : Option String :=
  match o with
  | none => none
  | some s => if s = "" then none else some s

/-- `fetch_makers(scope)` (recall_repo.py lines 213-254):
`SELECT DISTINCT maker_name ... ORDER BY maker_name` with the scope filter,
then the Python loop keeps only truthy names (`if maker_name:` drops NULL
and the empty string). -/
def fetch_makers (db : DB) (scope : String) : List String :=
  ((((db.manufacturers.filter (scopeSem scope)).map
      (fun mf => mf.maker_name)).dedup).insertionSort optNameLe).filterMap
    keepTruthy

/-- `fetch_year_range()` (recall_repo.py lines 261-292):
`MIN(YEAR(start_date))`, `MAX(YEAR(end_date))` over models with both dates
non-NULL; when the aggregate row is NULL (no such model) fall back to
`(2000, datetime.now().year)` — the wall-clock year is passed in as
`currentYear`. -/
def bothDatesModels (db : DB) : List CarModel :=
  db.models.filter fun m => m.start_date.isSome && m.end_date.isSome

/-- The `YEAR(start_date)` values `MIN` aggregates over
(`WHERE start_date IS NOT NULL AND end_date IS NOT NULL`). -/
def startYearsOf (db : DB) : List Nat :=
  (bothDatesModels db).filterMap fun m => m.start_date.map (·.y)

/-- The `YEAR(end_date)` values `MAX` aggregates over. -/
def endYearsOf (db : DB) : List Nat :=
  (bothDatesModels db).filterMap fun m => m.end_date.map (·.y)

def fetch_year_range (db : DB) (currentYear : Nat) : Nat × Nat :=
  match (startYearsOf db).min?, (endYearsOf db).max? with
  | some a, some b => (a, b)
  | _, _ => (2000, currentYear)

/-- `fetch_kpi(scope, maker, year)` (recall_repo.py lines 299-336):
`COUNT(*)` and `COALESCE(SUM(COALESCE(rc.recall_quantity, 0)), 0)` over the
joined rows passing the WHERE built with `search_text=""`. -/
def fetch_kpi (db : DB) (scope maker : String) (year : Nat) : Nat × Nat :=
  let rows := (joinRows db).filter (whereSem scope maker (some year) "")
  (rows.length, (rows.map fun r => r.1.recall_quantity.getD 0).sum)

/-- `fetch_maker_ranking(scope, maker, year, top_n)` (recall_repo.py lines
343-385): group the filtered joined rows by `mf.maker_name`, count each
group, order by count descending, `LIMIT top_n`. -/
def fetch_maker_ranking (db : DB) (scope maker : String) (year : Nat)
    (top_n : Nat := 20) : List (Option String × Nat) :=
  let rows := (joinRows db).filter (whereSem scope maker (some year) "")
  let keys := (rows.map fun r => r.2.2.maker_name).dedup
  (((keys.map fun k => (k, rows.countP fun r => r.2.2.maker_name == k)).insertionSort
      cntDesc)).take top_n

/-- Python `range(a, b)` (ascending, `b` excluded). -/
def pyRange (a b : Nat) : List Nat :=
  (List.range (b - a)).map (a + ·)

/-- `fetch_year_trend(scope, maker, min_year, max_year)` (recall_repo.py
lines 392-407): one `fetch_kpi` call per year of
`range(min_year, max_year + 1)`, keeping the count component. -/
def fetch_year_trend (db : DB) (scope maker : String) (min_year max_year : Nat) :
    List (Nat × Nat) :=
  (pyRange min_year (max_year + 1)).map fun y =>
    (y, (fetch_kpi db scope maker y).1)

/-- `fetch_model_ranking(scope, maker, year, top_n)` (recall_repo.py lines
414-458): like the maker ranking but grouped by `md.model_name`. -/
def fetch_model_ranking (db : DB) (scope maker : String) (year : Nat)
    (top_n : Nat := 20) : List (Option String × Nat) :=
  let rows := (joinRows db).filter (whereSem scope maker (some year) "")
  let keys := (rows.map fun r => r.2.1.model_name).dedup
  (((keys.map fun k => (k, rows.countP fun r => r.2.1.model_name == k)).insertionSort
      cntDesc)).take top_n

/-- A Python exception crossing the data layer: either a raw
`mysql.connector.Error` (carrying its message) or a `RuntimeError`. -/
inductive PyErr where
  | mysql (msg : String)
  | runtime (msg : String)
deriving DecidableEq, Repr

/-- Outcome of `mysql.connector.connect(...)` plus query execution: either
a snapshot of the store or a `mysql.connector.Error` with message `e`. -/
def dbQuery (conn : Except String DB) : Except PyErr DB :=
  match conn with
  | .error e => .error (.mysql e)
  | .ok db => .ok db

/-- The `try: ... except mysql.connector.Error as err: raise RuntimeError(
f"DB 오류({op}): {err}")` pattern: only the mysql error is caught and
re-raised; any other outcome passes through. -/
def opWrap {α : Type} (opName : String) (body : Except PyErr α) : Except PyErr α :=
  match body with
  | .error (.mysql e) => .error (.runtime ("DB 오류(" ++ opName ++ "): " ++ e))
  | x => x

/-- `fetch_recalls` with its connection attempt and exception wrapping. -/
def fetch_recallsE (conn : Except String DB) (scope maker : String)
    (manufacture_year : Option Nat) (search_text : String) (limit : Nat) :
    Except PyErr (List RecallView) :=
  opWrap "fetch_recalls" (do
    let db ← dbQuery conn
    pure (fetch_recalls db scope maker manufacture_year search_text limit))

/-- `fetch_makers` with its connection attempt and exception wrapping. -/
def fetch_makersE (conn : Except String DB) (scope : String) :
    Except PyErr (List String) :=
  opWrap "fetch_makers" (do
    let db ← dbQuery conn
    pure (fetch_makers db scope))

/-- `fetch_year_range` with its connection attempt and exception wrapping. -/
def fetch_year_rangeE (conn : Except String DB) (currentYear : Nat) :
    Except PyErr (Nat × Nat) :=
  opWrap "fetch_year_range" (do
    let db ← dbQuery conn
    pure (fetch_year_range db currentYear))

/-- `fetch_kpi` with its connection attempt and exception wrapping. -/
def fetch_kpiE (conn : Except String DB) (scope maker : String) (year : Nat) :
    Except PyErr (Nat × Nat) :=
  opWrap "fetch_kpi" (do
    let db ← dbQuery conn
    pure (fetch_kpi db scope maker year))

/-- `fetch_maker_ranking` with its connection attempt and exception wrapping. -/
def fetch_maker_rankingE (conn : Except String DB) (scope maker : String)
    (year : Nat) (top_n : Nat := 20) : Except PyErr (List (Option String × Nat)) :=
  opWrap "fetch_maker_ranking" (do
    let db ← dbQuery conn
    pure (fetch_maker_ranking db scope maker year top_n))

/-- `fetch_model_ranking` with its connection attempt and exception wrapping. -/
def fetch_model_rankingE (conn : Except String DB) (scope maker : String)
    (year : Nat) (top_n : Nat := 20) : Except PyErr (List (Option String × Nat)) :=
  opWrap "fetch_model_ranking" (do
    let db ← dbQuery conn
    pure (fetch_model_ranking db scope maker year top_n))

/-- `fetch_year_trend` with exceptions: the Python loop has no try/except
of its own; each iteration calls `fetch_kpi`, and the first exception
raised there aborts the loop and propagates. -/
def fetch_year_trendE (conn : Except String DB) (scope maker : String)
    (min_year max_year : Nat) : Except PyErr (List (Nat × Nat)) :=
  (pyRange min_year (max_year + 1)).foldlM
    (fun acc y => do
      let kpi ← fetch_kpiE conn scope maker y
      pure (acc ++ [(y, kpi.1)]))
    []

/-- The WHERE text `_build_where` returns depends only on which of the four
filters is a no-op, and is the fixed-order clause join. -/
theorem buildWhere_fst_eq (scope maker : String) (my : Option Nat) (st : String) :
    (buildWhere scope maker my st).1 =
      whereTextSpec (decide (scope ≠ "전체")) (decide (maker ≠ "전체"))
        my.isSome (decide (pyStrip st ≠ "")) := by
  cases my <;> by_cases hs : scope = "전체" <;> by_cases hm : maker = "전체" <;>
    by_cases ht : pyStrip st = "" <;>
      simp [buildWhere, whereTextSpec, hs, hm, ht]

/-- The parameter list `_build_where` returns is the filter values in
clause order. -/
theorem buildWhere_snd_eq (scope maker : String) (my : Option Nat) (st : String) :
    (buildWhere scope maker my st).2 = paramsSpec scope maker my st := by
  cases my <;> by_cases hs : scope = "전체" <;> by_cases hm : maker = "전체" <;>
    by_cases ht : pyStrip st = "" <;>
      simp [buildWhere, paramsSpec, hs, hm, ht]

/-- The WHERE text is empty exactly when every filter is a no-op. -/
theorem buildWhere_fst_empty_iff (scope maker : String) (my : Option Nat)
    (st : String) :
    (buildWhere scope maker my st).1 = "" ↔
      (scope = "전체" ∧ maker = "전체" ∧ my = none ∧ pyStrip st = "") := by
  cases my <;> by_cases hs : scope = "전체" <;> by_cases hm : maker = "전체" <;>
    by_cases ht : pyStrip st = "" <;>
      simp [buildWhere, hs, hm, ht] <;> decide

/-- C1: for every input, `_build_where` emits exactly one clause per
non-no-op filter and none for a no-op filter (scope "전체", maker "전체",
year absent, search blank after trimming), in the fixed order scope,
maker, year, search joined by " AND ", and returns the empty string when
every filter is a no-op. -/
theorem build_where_one_clause_per_filter (scope maker : String)
    (my : Option Nat) (st : String) :
    (buildWhere scope maker my st).1 =
        whereTextSpec (decide (scope ≠ "전체")) (decide (maker ≠ "전체"))
          my.isSome (decide (pyStrip st ≠ "")) ∧
      ((buildWhere scope maker my st).1 = "" ↔
        (scope = "전체" ∧ maker = "전체" ∧ my = none ∧ pyStrip st = "")) :=
  ⟨buildWhere_fst_eq scope maker my st, buildWhere_fst_empty_iff scope maker my st⟩

/-- C2 counterexample: a filter value can occur in the WHERE text as a
substring — choosing the scope value to be the scope clause itself, the
produced text contains that value verbatim, refuting "never contains any
filter value as a substring". -/
theorem build_where_value_substring_counterexample :
    containsSub (buildWhere "mf.region_at = %s" "전체" none "").1
      "mf.region_at = %s" = true := by decide

/-- C2 (amended): the WHERE text is built from the fixed clause fragments
only and is determined solely by which inputs are no-ops — any two inputs
no-op in the same positions give character-identical text — and the filter
values appear only in the returned parameter list, in clause order; a
value can coincide with a fragment of the fixed text, but never alters it. -/
theorem build_where_text_pattern_determined :
    (∀ s1 m1 y1 t1 s2 m2 y2 t2,
      (s1 = "전체" ↔ s2 = "전체") → (m1 = "전체" ↔ m2 = "전체") →
      (y1 : Option Nat).isSome = y2.isSome → (pyStrip t1 = "" ↔ pyStrip t2 = "") →
      (buildWhere s1 m1 y1 t1).1 = (buildWhere s2 m2 y2 t2).1) ∧
    (∀ scope maker my st,
      (buildWhere scope maker my st).2 = paramsSpec scope maker my st) := by
  constructor
  · intro s1 m1 y1 t1 s2 m2 y2 t2 hs hm hy ht
    rw [buildWhere_fst_eq, buildWhere_fst_eq, hy]
    have hs' : decide (s1 ≠ "전체") = decide (s2 ≠ "전체") :=
      decide_eq_decide.mpr (not_congr hs)
    have hm' : decide (m1 ≠ "전체") = decide (m2 ≠ "전체") :=
      decide_eq_decide.mpr (not_congr hm)
    have ht' : decide (pyStrip t1 ≠ "") = decide (pyStrip t2 ≠ "") :=
      decide_eq_decide.mpr (not_congr ht)
    rw [hs', hm', ht']
  · intro scope maker my st
    exact buildWhere_snd_eq scope maker my st

/-- Witness for the C2 theorem at concrete inputs: two inputs with the
same no-op pattern but different filter values produce identical WHERE
text. -/
theorem build_where_text_pattern_determined_witness :
    (("국내" : String) = "전체" ↔ ("해외" : String) = "전체") ∧
    (buildWhere "국내" "Hyundai" (some 2020) " GV70 ").1 =
      (buildWhere "해외" "Kia" (some 1999) "x").1 :=
  ⟨by decide,
   build_where_text_pattern_determined.1 "국내" "Hyundai" (some 2020) " GV70 "
     "해외" "Kia" (some 1999) "x" (by decide) (by decide) rfl (by decide)⟩

/-- Model with production period 2020-01-01 .. 2025-12-31, the example in
the spec's year-overlap property. -/
def exModel : CarModel :=
  { model_id := 1, maker_id := 1, model_name := some "X1",
    start_date := some ⟨2020, 1, 1⟩, end_date := some ⟨2025, 12, 31⟩ }

/-- A recall of `exModel`. -/
def exRecall : Recall :=
  { model_id := 1, recall_quantity := some 10, defect_desc := none,
    fix_method := none, recall_center := none }

/-- The manufacturer owning `exModel`. -/
def exMaker : Manufacturer :=
  { maker_id := 1, maker_name := some "Acme", region_at := some "국내" }

/-- Store holding exactly one recall of the 2020-2025 model. -/
def exDb : DB :=
  { recalls := [exRecall], models := [exModel], manufacturers := [exMaker] }

/-- Stripping the empty search text yields the empty string. -/
theorem pyStrip_empty : pyStrip "" = "" := rfl

/-- The year clause matches the 2020-2025 model exactly for the years 2020
through 2025. -/
theorem yearOverlap_exModel_iff (y : Nat) :
    yearOverlapSem y exModel = true ↔ (2020 ≤ y ∧ y ≤ 2025) := by
  simp [yearOverlapSem, exModel, PDate.le]
  omega

/-- C3: the year clause selects exactly the models whose period satisfies
start_date ≤ Dec 31 of Y and end_date ≥ Jan 1 of Y (range overlap): a
model with period [2020-01-01, 2025-12-31] matches the year filters 2020
through 2025 and no others, and the single-recall store over that model
yields KPI count 1 exactly for those years and 0 otherwise. -/
theorem year_filter_selects_overlapping_periods :
    (∀ (sd ed : PDate) (mid mkid : Nat) (nm : Option String) (y : Nat),
        yearOverlapSem y ⟨mid, mkid, nm, some sd, some ed⟩ = true ↔
          (PDate.le sd ⟨y, 12, 31⟩ ∧ PDate.le ⟨y, 1, 1⟩ ed)) ∧
    (∀ y : Nat, yearOverlapSem y exModel = true ↔ (2020 ≤ y ∧ y ≤ 2025)) ∧
    (∀ y : Nat, (fetch_kpi exDb "전체" "전체" y).1 =
        if 2020 ≤ y ∧ y ≤ 2025 then 1 else 0) := by
  refine ⟨?_, yearOverlap_exModel_iff, ?_⟩
  · intro sd ed mid mkid nm y
    simp [yearOverlapSem]
  · intro y
    have hj : joinRows exDb = [(exRecall, exModel, exMaker)] := rfl
    by_cases h : 2020 ≤ y ∧ y ≤ 2025
    · have hm := (yearOverlap_exModel_iff y).mpr h
      simp [fetch_kpi, hj, whereSem, scopeSem, makerSem, yearSem, searchSem,
        List.filter, hm, h, pyStrip_empty]
    · have hm : yearOverlapSem y exModel = false :=
        Bool.eq_false_iff.mpr fun hc => h ((yearOverlap_exModel_iff y).mp hc)
      simp [fetch_kpi, hj, whereSem, scopeSem, makerSem, yearSem, searchSem,
        List.filter, hm, h, pyStrip_empty]

/-- C4: for `min_year ≤ max_year` the year trend has exactly
`max_year - min_year + 1` entries, the i-th entry being
`(min_year + i, count component of fetch_kpi at that year)` — ascending
years with no gaps, zero-count years included. -/
theorem year_trend_one_entry_per_year (db : DB) (scope maker : String)
    (min_year max_year : Nat) (h : min_year ≤ max_year) :
    (fetch_year_trend db scope maker min_year max_year).length =
        max_year - min_year + 1 ∧
      fetch_year_trend db scope maker min_year max_year =
        (List.range (max_year - min_year + 1)).map fun i =>
          (min_year + i, (fetch_kpi db scope maker (min_year + i)).1) := by
  have hc : max_year + 1 - min_year = max_year - min_year + 1 := by omega
  constructor
  · simp [fetch_year_trend, pyRange, hc]
  · simp [fetch_year_trend, pyRange, hc, List.map_map, Function.comp]

/-- Witness for the year-trend theorem on the concrete store and range
2020-2022. -/
theorem year_trend_one_entry_per_year_witness :
    (2020 : Nat) ≤ 2022 ∧
      ((fetch_year_trend exDb "전체" "전체" 2020 2022).length = 2022 - 2020 + 1 ∧
        fetch_year_trend exDb "전체" "전체" 2020 2022 =
          (List.range (2022 - 2020 + 1)).map fun i =>
            (2020 + i, (fetch_kpi exDb "전체" "전체" (2020 + i)).1)) :=
  ⟨by decide, year_trend_one_entry_per_year exDb "전체" "전체" 2020 2022 (by decide)⟩

/-- The structural (scope, maker, year) filter conjunction, with no search
clause. -/
def structuralSem (scope maker : String) (year : Nat) :
    Recall × CarModel × Manufacturer → Bool
  | (_, md, mf) => scopeSem scope mf && makerSem maker mf && yearOverlapSem year md

/-- Fixing `search_text = ""` makes the WHERE conjunction the structural
filter alone. -/
theorem whereSem_empty_search (scope maker : String) (year : Nat) :
    whereSem scope maker (some year) "" = structuralSem scope maker year := by
  funext r
  rcases r with ⟨rc, md, mf⟩
  simp [whereSem, structuralSem, yearSem, searchSem, pyStrip_empty]

/-- C6: the KPI applies only the scope, maker and year filters (search is
passed as empty and drops out), returning the matching-row count and the
sum of `COALESCE`d unit quantities, with `(0, 0)` for an empty match set. -/
theorem kpi_structural_filters_only (db : DB) (scope maker : String) (year : Nat) :
    fetch_kpi db scope maker year =
        (((joinRows db).filter (structuralSem scope maker year)).length,
          (((joinRows db).filter (structuralSem scope maker year)).map fun r =>
            r.1.recall_quantity.getD 0).sum) ∧
      ((joinRows db).filter (structuralSem scope maker year) = [] →
        fetch_kpi db scope maker year = (0, 0)) := by
  constructor
  · simp [fetch_kpi, whereSem_empty_search]
  · intro he
    simp [fetch_kpi, whereSem_empty_search, he]

/-- Witness for the KPI theorem: on the concrete store with an overseas
scope nothing matches, and the KPI is `(0, 0)`. -/
theorem kpi_structural_filters_only_witness :
    (joinRows exDb).filter (structuralSem "해외" "전체" 2020) = [] ∧
      fetch_kpi exDb "해외" "전체" 2020 = (0, 0) :=
  ⟨by decide, (kpi_structural_filters_only exDb "해외" "전체" 2020).2 (by decide)⟩

/-- C7: the maker ranking is count-descending (recall counts
non-increasing), has at most `top_n` entries, one entry per manufacturer
name (no duplicate group keys), and each entry's count is the number of
filtered joined rows carrying that manufacturer name. -/
theorem maker_ranking_sorted_and_capped (db : DB) (scope maker : String)
    (year top_n : Nat) :
    (fetch_maker_ranking db scope maker year top_n).length ≤ top_n ∧
      List.Pairwise (fun a b : Option String × Nat => b.2 ≤ a.2)
        (fetch_maker_ranking db scope maker year top_n) ∧
      ((fetch_maker_ranking db scope maker year top_n).map Prod.fst).Nodup ∧
      ∀ p ∈ fetch_maker_ranking db scope maker year top_n,
        p.2 = ((joinRows db).filter (whereSem scope maker (some year) "")).countP
                fun r => r.2.2.maker_name == p.1 := by
  set rows := (joinRows db).filter (whereSem scope maker (some year) "") with hrows
  set grouped := ((rows.map fun r => r.2.2.maker_name).dedup).map
      (fun k => (k, rows.countP fun r => r.2.2.maker_name == k)) with hgrp
  have hdef : fetch_maker_ranking db scope maker year top_n =
      (grouped.insertionSort cntDesc).take top_n := rfl
  refine ⟨?_, ?_, ?_, ?_⟩
  · rw [hdef]; exact List.length_take_le _ _
  · rw [hdef]
    exact List.Pairwise.sublist (List.take_sublist _ _)
      (List.sorted_insertionSort cntDesc grouped)
  · rw [hdef]
    have h1 : grouped.map Prod.fst = (rows.map fun r => r.2.2.maker_name).dedup := by
      have hid : (Prod.fst ∘ fun k : Option String =>
          (k, rows.countP fun r => r.2.2.maker_name == k)) = id := rfl
      rw [hgrp, List.map_map, hid, List.map_id]
    have h2 : (grouped.map Prod.fst).Nodup := by
      rw [h1]; exact List.nodup_dedup _
    have h3 : ((grouped.insertionSort cntDesc).map Prod.fst).Nodup :=
      (((List.perm_insertionSort cntDesc grouped).map Prod.fst).nodup_iff).mpr h2
    rw [List.map_take]
    exact List.Sublist.nodup (List.take_sublist _ _) h3
  · intro p hp
    rw [hdef] at hp
    have hp2 : p ∈ grouped.insertionSort cntDesc := List.mem_of_mem_take hp
    have hp3 : p ∈ grouped := (List.perm_insertionSort cntDesc grouped).subset hp2
    rcases List.mem_map.mp hp3 with ⟨k, _, rfl⟩
    rfl

/-- Witness for the maker-ranking theorem: on the concrete store the single
entry's count is the filtered-row count for its manufacturer name. -/
theorem maker_ranking_sorted_and_capped_witness :
    ((some "Acme", 1) ∈ fetch_maker_ranking exDb "전체" "전체" 2020 20) ∧
      ((some "Acme", 1) : Option String × Nat).2 =
        ((joinRows exDb).filter (whereSem "전체" "전체" (some 2020) "")).countP
          (fun r => r.2.2.maker_name == ((some "Acme", 1) : Option String × Nat).1) :=
  ⟨by decide,
   (maker_ranking_sorted_and_capped exDb "전체" "전체" 2020 20).2.2.2
     (some "Acme", 1) (by decide)⟩

/-- Replace an absent unit quantity by an explicit 0 (what `COALESCE`
treats it as). -/
def normRecall (rc : Recall) : Recall :=
  { rc with recall_quantity := some (rc.recall_quantity.getD 0) }

/-- The store with every absent recall quantity replaced by 0. -/
def normQuantities (db : DB) : DB :=
  { db with recalls := db.recalls.map normRecall }

/-- Membership in the three-way join. -/
theorem mem_joinRows {db : DB} {rc : Recall} {md : CarModel} {mf : Manufacturer} :
    (rc, md, mf) ∈ joinRows db ↔
      rc ∈ db.recalls ∧ md ∈ db.models ∧ mf ∈ db.manufacturers ∧
        md.model_id = rc.model_id ∧ mf.maker_id = md.maker_id := by
  simp only [joinRows, modelMakerRows, List.mem_flatMap, List.mem_map,
    List.mem_filter, beq_iff_eq, Prod.mk.injEq]
  aesop

/-- Normalizing quantities maps the join rows one-for-one. -/
theorem joinRows_normQuantities (db : DB) :
    joinRows (normQuantities db) =
      (joinRows db).map fun t => (normRecall t.1, t.2.1, t.2.2) := by
  simp only [joinRows, normQuantities, List.flatMap_map, List.map_flatMap,
    List.map_map]
  rfl

/-- C8 (amended): every record `fetch_recalls` returns comes from one
joined row, with absent unit quantity shown as 0 and absent text columns
shown as the empty string; the production dates, however, are passed
through unchanged (an absent date stays absent).  Replacing every absent
quantity by 0 leaves the KPI pair unchanged, so absent quantities
contribute 0 to the aggregation. -/
theorem fetch_recalls_normalizes_fields (db : DB) (scope maker : String)
    (my : Option Nat) (st : String) (limit : Nat) :
    (∀ r ∈ fetch_recalls db scope maker my st limit,
        ∃ rc ∈ db.recalls, ∃ md ∈ db.models, ∃ mf ∈ db.manufacturers,
          r = toView (rc, md, mf) ∧
          r.target_units = rc.recall_quantity.getD 0 ∧
          r.scope = mf.region_at.getD "" ∧
          r.maker = mf.maker_name.getD "" ∧
          r.car_name = md.model_name.getD "" ∧
          r.defect_text = rc.defect_desc.getD "" ∧
          r.fix_text = rc.fix_method.getD "" ∧
          r.contact_text = rc.recall_center.getD "" ∧
          r.start_date = md.start_date ∧ r.end_date = md.end_date) ∧
      ∀ s2 m2 y2, fetch_kpi (normQuantities db) s2 m2 y2 = fetch_kpi db s2 m2 y2 := by
  constructor
  · intro r hr
    have h1 := List.mem_of_mem_take hr
    rcases List.mem_map.mp h1 with ⟨t, ht, rfl⟩
    have ht2 : t ∈ (joinRows db).filter (whereSem scope maker my st) :=
      (List.perm_insertionSort rowEndDesc _).subset ht
    have ht3 : t ∈ joinRows db := (List.mem_filter.mp ht2).1
    rcases t with ⟨rc, md, mf⟩
    rcases mem_joinRows.mp ht3 with ⟨h4, h5, h6, -, -⟩
    exact ⟨rc, h4, md, h5, mf, h6, rfl, rfl, rfl, rfl, rfl, rfl, rfl, rfl, rfl, rfl⟩
  · intro s2 m2 y2
    have hpred : (whereSem s2 m2 (some y2) "" ∘
        fun t : Recall × CarModel × Manufacturer => (normRecall t.1, t.2.1, t.2.2)) =
          whereSem s2 m2 (some y2) "" := by
      funext t; rcases t with ⟨rc, md, mf⟩; rfl
    simp only [fetch_kpi, joinRows_normQuantities, List.filter_map, hpred,
      List.length_map, List.map_map]
    rfl

/-- Witness for the normalization theorem: the concrete store's single
record satisfies the per-field characterization. -/
theorem fetch_recalls_normalizes_fields_witness :
    (toView (exRecall, exModel, exMaker) ∈
        fetch_recalls exDb "전체" "전체" none "" 500) ∧
      ∃ rc ∈ exDb.recalls, ∃ md ∈ exDb.models, ∃ mf ∈ exDb.manufacturers,
        toView (exRecall, exModel, exMaker) = toView (rc, md, mf) ∧
        (toView (exRecall, exModel, exMaker)).target_units =
          rc.recall_quantity.getD 0 ∧
        (toView (exRecall, exModel, exMaker)).scope = mf.region_at.getD "" ∧
        (toView (exRecall, exModel, exMaker)).maker = mf.maker_name.getD "" ∧
        (toView (exRecall, exModel, exMaker)).car_name = md.model_name.getD "" ∧
        (toView (exRecall, exModel, exMaker)).defect_text = rc.defect_desc.getD "" ∧
        (toView (exRecall, exModel, exMaker)).fix_text = rc.fix_method.getD "" ∧
        (toView (exRecall, exModel, exMaker)).contact_text =
          rc.recall_center.getD "" ∧
        (toView (exRecall, exModel, exMaker)).start_date = md.start_date ∧
        (toView (exRecall, exModel, exMaker)).end_date = md.end_date :=
  ⟨by decide,
   (fetch_recalls_normalizes_fields exDb "전체" "전체" none "" 500).1
     (toView (exRecall, exModel, exMaker)) (by decide)⟩

/-- Model whose production-period start date is absent in the store. -/
def nullStartModel : CarModel :=
  { model_id := 5, maker_id := 5, model_name := some "Zed",
    start_date := none, end_date := some ⟨2024, 12, 31⟩ }

/-- Store with one recall whose model lacks a start date and whose
quantity is absent. -/
def nullStartDb : DB :=
  { recalls := [{ model_id := 5, recall_quantity := none, defect_desc := none,
                  fix_method := none, recall_center := none }],
    models := [nullStartModel],
    manufacturers := [{ maker_id := 5, maker_name := some "Zed Motors",
                        region_at := some "국내" }] }

/-- C8 counterexample: with no year filter, `fetch_recalls` returns a
record whose `start_date` field is the missing-value marker (the dates are
not `COALESCE`d), so not every field of a returned record is
null-normalized; the absent quantity of the same record does display
as 0. -/
theorem fetch_recalls_null_date_counterexample :
    (fetch_recalls nullStartDb "전체" "전체" none "" 500).map
        (fun r => r.start_date) = [none] ∧
      (fetch_recalls nullStartDb "전체" "전체" none "" 500).map
        (fun r => r.target_units) = [0] := by decide

/-- No start-year aggregate exists exactly when no model has both dates. -/
theorem startYearsOf_eq_nil_iff (db : DB) :
    startYearsOf db = [] ↔ bothDatesModels db = [] := by
  constructor
  · intro h
    cases bd : bothDatesModels db with
    | nil => rfl
    | cons m rest =>
        have hm : m ∈ bothDatesModels db := by rw [bd]; exact List.mem_cons_self _ _
        have hpred := (List.mem_filter.mp hm).2
        have hnone := List.filterMap_eq_nil_iff.mp h m hm
        cases hs : m.start_date <;> simp [hs] at hpred hnone
  · intro h; simp [startYearsOf, h]

/-- No end-year aggregate exists exactly when no model has both dates. -/
theorem endYearsOf_eq_nil_iff (db : DB) :
    endYearsOf db = [] ↔ bothDatesModels db = [] := by
  constructor
  · intro h
    cases bd : bothDatesModels db with
    | nil => rfl
    | cons m rest =>
        have hm : m ∈ bothDatesModels db := by rw [bd]; exact List.mem_cons_self _ _
        have hpred := (List.mem_filter.mp hm).2
        have hnone := List.filterMap_eq_nil_iff.mp h m hm
        cases hs : m.end_date <;> simp [hs] at hpred hnone
  · intro h; simp [endYearsOf, h]

/-- C9 (amended): over the models that have both production dates set,
`fetch_year_range` returns the least start year paired with the greatest
end year, and the fallback `(2000, current year)` when no model has both
dates set; models missing one of the two dates are excluded from the
aggregation. -/
theorem year_range_spans_dated_models (db : DB) (currentYear : Nat) :
    (bothDatesModels db = [] →
        fetch_year_range db currentYear = (2000, currentYear)) ∧
      (bothDatesModels db ≠ [] →
        (fetch_year_range db currentYear).1 ∈ startYearsOf db ∧
        (∀ x ∈ startYearsOf db, (fetch_year_range db currentYear).1 ≤ x) ∧
        (fetch_year_range db currentYear).2 ∈ endYearsOf db ∧
        (∀ x ∈ endYearsOf db, x ≤ (fetch_year_range db currentYear).2)) := by
  constructor
  · intro h
    have h1 : startYearsOf db = [] := (startYearsOf_eq_nil_iff db).mpr h
    simp [fetch_year_range, h1]
  · intro h
    have h1 : startYearsOf db ≠ [] := fun hc => h ((startYearsOf_eq_nil_iff db).mp hc)
    have h2 : endYearsOf db ≠ [] := fun hc => h ((endYearsOf_eq_nil_iff db).mp hc)
    rcases ha : (startYearsOf db).min? with - | a
    · exact absurd (List.min?_eq_none_iff.mp ha) h1
    rcases hb : (endYearsOf db).max? with - | b
    · exact absurd (List.max?_eq_none_iff.mp hb) h2
    have hmin := List.min?_eq_some_iff'.mp ha
    have hmax := List.max?_eq_some_iff'.mp hb
    have hfr : fetch_year_range db currentYear = (a, b) := by
      simp [fetch_year_range, ha, hb]
    rw [hfr]
    exact ⟨hmin.1, hmin.2, hmax.1, hmax.2⟩

/-- Store with one model dated [1990, NULL) and one dated
[2010-01-01, 2020-06-30]. -/
def cexDb9 : DB :=
  { recalls := [],
    models :=
      [{ model_id := 1, maker_id := 1, model_name := none,
         start_date := some ⟨1990, 1, 1⟩, end_date := none },
       { model_id := 2, maker_id := 1, model_name := none,
         start_date := some ⟨2010, 1, 1⟩, end_date := some ⟨2020, 6, 30⟩ }],
    manufacturers := [] }

/-- C9 counterexample: the minimum production-start year across all models
is 1990, but `fetch_year_range` returns 2010 because the model whose end
date is absent is excluded from the aggregation — the range is not
computed "across all models". -/
theorem year_range_counterexample :
    fetch_year_range cexDb9 2031 = (2010, 2020) ∧
      (cexDb9.models.filterMap fun m => m.start_date.map (·.y)).min? =
        some 1990 := by decide

/-- Witness for the year-range theorem on the two-model store. -/
theorem year_range_spans_dated_models_witness :
    bothDatesModels cexDb9 ≠ [] ∧
      ((fetch_year_range cexDb9 2031).1 ∈ startYearsOf cexDb9 ∧
        (∀ x ∈ startYearsOf cexDb9, (fetch_year_range cexDb9 2031).1 ≤ x) ∧
        (fetch_year_range cexDb9 2031).2 ∈ endYearsOf cexDb9 ∧
        (∀ x ∈ endYearsOf cexDb9, x ≤ (fetch_year_range cexDb9 2031).2)) :=
  ⟨by decide, (year_range_spans_dated_models cexDb9 2031).2 (by decide)⟩

/-- A name surviving `keepTruthy` is the cell's own non-empty value. -/
theorem keepTruthy_eq_some {o : Option String} {s : String}
    (h : keepTruthy o = some s) : o = some s ∧ s ≠ "" := by
  cases o with
  | none => simp [keepTruthy] at h
  | some v =>
      by_cases hv : v = ""
      · simp [keepTruthy, hv] at h
      · simp [keepTruthy, hv] at h
        exact ⟨by rw [h], h ▸ hv⟩

/-- C10: the maker dropdown list contains no empty name (NULL and empty
rows are dropped by the `if maker_name:` filter), and keeps the distinct,
ascending shape of the `SELECT DISTINCT ... ORDER BY` query. -/
theorem fetch_makers_no_null_no_empty (db : DB) (scope : String) :
    (∀ s ∈ fetch_makers db scope, s ≠ "") ∧
      (fetch_makers db scope).Nodup ∧
      List.Pairwise (fun a b : String => a ≤ b) (fetch_makers db scope) := by
  set base := ((db.manufacturers.filter (scopeSem scope)).map
      fun mf => mf.maker_name).dedup with hbase
  have hdef : fetch_makers db scope =
      (base.insertionSort optNameLe).filterMap keepTruthy := rfl
  refine ⟨?_, ?_, ?_⟩
  · intro s hs
    rw [hdef] at hs
    rcases List.mem_filterMap.mp hs with ⟨o, -, hfo⟩
    exact (keepTruthy_eq_some hfo).2
  · rw [hdef]
    have hnd : (base.insertionSort optNameLe).Nodup :=
      ((List.perm_insertionSort optNameLe base).nodup_iff).mpr (List.nodup_dedup _)
    refine List.Pairwise.filterMap keepTruthy ?_ hnd
    intro a a' hne b hb b' hb'
    have h1 := keepTruthy_eq_some hb
    have h2 := keepTruthy_eq_some hb'
    intro hbb
    exact hne (by rw [h1.1, h2.1, hbb])
  · rw [hdef]
    refine List.Pairwise.filterMap keepTruthy ?_
      (List.sorted_insertionSort optNameLe base)
    intro a a' hle b hb b' hb'
    have h1 := (keepTruthy_eq_some hb).1
    have h2 := (keepTruthy_eq_some hb').1
    rw [h1, h2] at hle
    exact hle

/-- Witness for the maker-dropdown theorem: the concrete store's one maker
name is returned and is non-empty. -/
theorem fetch_makers_no_null_no_empty_witness :
    ("Acme" ∈ fetch_makers exDb "전체") ∧ "Acme" ≠ "" :=
  ⟨by decide, (fetch_makers_no_null_no_empty exDb "전체").1 "Acme" (by decide)⟩

/-- An operation that wraps one query never lets a raw mysql error out:
the result is either a value or the wrapping RuntimeError. -/
theorem opWrapQuery_not_mysql {α : Type} (n : String) (conn : Except String DB)
    (g : DB → α) (m : String) :
    opWrap n (do
      let db ← dbQuery conn
      pure (g db)) ≠ .error (.mysql m) := by
  cases conn with
  | error e =>
      have h : opWrap n (do
          let db ← dbQuery (Except.error e : Except String DB)
          pure (g db)) = .error (.runtime ("DB 오류(" ++ n ++ "): " ++ e)) := rfl
      rw [h]; simp
  | ok db =>
      have h : opWrap n (do
          let db2 ← dbQuery (Except.ok db : Except String DB)
          pure (g db2)) = .ok (g db) := rfl
      rw [h]; simp

/-- A fold over steps that only succeed or raise RuntimeErrors itself only
succeeds or raises a RuntimeError. -/
theorem foldlM_except_shape {β γ : Type} (f : β → γ → Except PyErr β)
    (hf : ∀ b c, (∃ v, f b c = .ok v) ∨ (∃ msg, f b c = .error (.runtime msg))) :
    ∀ (l : List γ) (acc : β),
      (∃ v, l.foldlM f acc = .ok v) ∨
        (∃ msg, l.foldlM f acc = .error (.runtime msg)) := by
  intro l
  induction l with
  | nil => intro acc; exact .inl ⟨acc, by rw [List.foldlM_nil]; rfl⟩
  | cons c cs ih =>
      intro acc
      rcases hf acc c with ⟨v, hv⟩ | ⟨msg, hmsg⟩
      · have hstep : (c :: cs).foldlM f acc = cs.foldlM f v := by
          rw [List.foldlM_cons, hv]; rfl
        rw [hstep]; exact ih v
      · refine .inr ⟨msg, ?_⟩
        rw [List.foldlM_cons, hmsg]; rfl

/-- Each step of the year-trend loop either succeeds or raises the
RuntimeError wrapped inside `fetch_kpi`. -/
theorem trend_step_shape (conn : Except String DB) (scope maker : String) :
    ∀ (b : List (Nat × Nat)) (c : Nat),
      (∃ v, (do
          let kpi ← fetch_kpiE conn scope maker c
          pure (b ++ [(c, kpi.1)]) : Except PyErr (List (Nat × Nat))) = .ok v) ∨
        (∃ msg, (do
          let kpi ← fetch_kpiE conn scope maker c
          pure (b ++ [(c, kpi.1)]) : Except PyErr (List (Nat × Nat))) =
            .error (.runtime msg)) := by
  intro b c
  cases conn with
  | ok db => exact .inl ⟨b ++ [(c, (fetch_kpi db scope maker c).1)], rfl⟩
  | error e => exact .inr ⟨"DB 오류(fetch_kpi): " ++ e, rfl⟩

/-- With `min_year < max_year + 1` the loop runs at least once. -/
theorem pyRange_ne_nil {a b : Nat} (h : a < b) : pyRange a b ≠ [] := by
  simp [pyRange, List.range_eq_nil]
  omega

/-- C5 (amended): no raw storage-layer error ever escapes any of the seven
operations; each operation that itself executes a query re-signals a
storage failure as a RuntimeError carrying its own name and the underlying
message; `fetch_year_trend`, which queries only through `fetch_kpi`,
propagates the RuntimeError produced there, so its callers see the
`fetch_kpi` name rather than `fetch_year_trend`. -/
theorem storage_failures_wrapped (conn : Except String DB)
    (scope maker : String) (my : Option Nat) (st : String)
    (limit year top_n min_year max_year cy : Nat) (e m : String) :
    (fetch_recallsE conn scope maker my st limit ≠ .error (.mysql m) ∧
      fetch_makersE conn scope ≠ .error (.mysql m) ∧
      fetch_year_rangeE conn cy ≠ .error (.mysql m) ∧
      fetch_kpiE conn scope maker year ≠ .error (.mysql m) ∧
      fetch_maker_rankingE conn scope maker year top_n ≠ .error (.mysql m) ∧
      fetch_model_rankingE conn scope maker year top_n ≠ .error (.mysql m) ∧
      fetch_year_trendE conn scope maker min_year max_year ≠
        .error (.mysql m)) ∧
      (fetch_recallsE (.error e) scope maker my st limit =
          .error (.runtime ("DB 오류(fetch_recalls): " ++ e)) ∧
        fetch_makersE (.error e) scope =
          .error (.runtime ("DB 오류(fetch_makers): " ++ e)) ∧
        fetch_year_rangeE (.error e) cy =
          .error (.runtime ("DB 오류(fetch_year_range): " ++ e)) ∧
        fetch_kpiE (.error e) scope maker year =
          .error (.runtime ("DB 오류(fetch_kpi): " ++ e)) ∧
        fetch_maker_rankingE (.error e) scope maker year top_n =
          .error (.runtime ("DB 오류(fetch_maker_ranking): " ++ e)) ∧
        fetch_model_rankingE (.error e) scope maker year top_n =
          .error (.runtime ("DB 오류(fetch_model_ranking): " ++ e))) ∧
      (min_year ≤ max_year →
        fetch_year_trendE (.error e) scope maker min_year max_year =
          .error (.runtime ("DB 오류(fetch_kpi): " ++ e))) := by
  refine ⟨⟨?_, ?_, ?_, ?_, ?_, ?_, ?_⟩, ⟨rfl, rfl, rfl, rfl, rfl, rfl⟩, ?_⟩
  · exact opWrapQuery_not_mysql "fetch_recalls" conn
      (fun db => fetch_recalls db scope maker my st limit) m
  · exact opWrapQuery_not_mysql "fetch_makers" conn
      (fun db => fetch_makers db scope) m
  · exact opWrapQuery_not_mysql "fetch_year_range" conn
      (fun db => fetch_year_range db cy) m
  · exact opWrapQuery_not_mysql "fetch_kpi" conn
      (fun db => fetch_kpi db scope maker year) m
  · exact opWrapQuery_not_mysql "fetch_maker_ranking" conn
      (fun db => fetch_maker_ranking db scope maker year top_n) m
  · exact opWrapQuery_not_mysql "fetch_model_ranking" conn
      (fun db => fetch_model_ranking db scope maker year top_n) m
  · rcases foldlM_except_shape _ (trend_step_shape conn scope maker)
        (pyRange min_year (max_year + 1)) [] with ⟨v, hv⟩ | ⟨msg, hmsg⟩
    · intro h; rw [show fetch_year_trendE conn scope maker min_year max_year =
        (pyRange min_year (max_year + 1)).foldlM (fun acc y => do
          let kpi ← fetch_kpiE conn scope maker y
          pure (acc ++ [(y, kpi.1)])) [] from rfl, hv] at h
      exact Except.noConfusion h
    · intro h; rw [show fetch_year_trendE conn scope maker min_year max_year =
        (pyRange min_year (max_year + 1)).foldlM (fun acc y => do
          let kpi ← fetch_kpiE conn scope maker y
          pure (acc ++ [(y, kpi.1)])) [] from rfl, hmsg] at h
      simp at h
  · intro hle
    cases hpr : pyRange min_year (max_year + 1) with
    | nil => exact absurd hpr (pyRange_ne_nil (by omega))
    | cons y ys =>
        rw [show fetch_year_trendE (.error e) scope maker min_year max_year =
          (pyRange min_year (max_year + 1)).foldlM (fun acc y => do
            let kpi ← fetch_kpiE (.error e) scope maker y
            pure (acc ++ [(y, kpi.1)])) [] from rfl, hpr, List.foldlM_cons]
        rfl

/-- Witness for the error-wrapping theorem: a failing store makes the
2020-2021 trend raise the RuntimeError wrapped inside `fetch_kpi`. -/
theorem storage_failures_wrapped_witness :
    (2020 : Nat) ≤ 2021 ∧
      fetch_year_trendE (.error "boom") "전체" "전체" 2020 2021 =
        .error (.runtime ("DB 오류(fetch_kpi): " ++ "boom")) :=
  ⟨by decide,
   (storage_failures_wrapped (.error "boom") "전체" "전체" none "" 500 2020 20
     2020 2021 2025 "boom" "m").2.2 (by decide)⟩

/-- C5 counterexample: on a failing store, `fetch_year_trend` surfaces a
RuntimeError whose message names `fetch_kpi` — the message does not
contain the name of the invoked operation `fetch_year_trend`. -/
theorem year_trend_error_names_inner_operation :
    fetch_year_trendE (.error "boom") "전체" "전체" 2020 2021 =
        .error (.runtime "DB 오류(fetch_kpi): boom") ∧
      containsSub "DB 오류(fetch_kpi): boom" "fetch_year_trend" = false :=
  ⟨rfl, by decide⟩
